import Mathlib

/-!
Shallow embedding of scripts/agent.py, the ChainHopper agent interface.

Python strings are modelled as lists of characters (type Str below); the
helpers pySplit, pyReplace, pyStrip, pyInt model the Python string
operations str.split, str.replace, str.strip and the int constructor,
restricted to the ASCII texts the program handles.  The split and replace
helpers take a fuel argument so that every definition is structurally
recursive and evaluates inside the kernel; the wrappers supply enough
fuel for the fuel never to run out.

The effect of one program run is a Trace: the printed lines, the argv of
every child process that was started, and the final exit status.  The
environment Env carries everything the program reads from the outside
world: whether the configuration file exists, the parsed configuration
value, the prompt template directory, the stdout of the git remote
lookup (none models an exception raised by that lookup), and an oracle
giving the exit code of each spawned child process.
-/

/-- Python strings are modelled as lists of characters. -/
abbrev Str := List Char

/-- Fuel version of Python str.split with a nonempty separator.  The
separator occurrences are found left to right and are non overlapping,
as in Python.  With fuel larger than the length of the string the fuel
never runs out. -/
def pySplitF : Nat → Str → Str → List Str
  | 0, _, s => [s]
  | fuel+1, sep, s =>
    match s with
    | [] => [[]]
    | x :: xs =>
      if sep ≠ [] ∧ sep.isPrefixOf (x :: xs) = true then
        [] :: pySplitF fuel sep (List.drop sep.length (x :: xs))
      else
        match pySplitF fuel sep xs with
        | [] => [[x]]
        | y :: ys => (x :: y) :: ys

/-- Python str.split with a nonempty separator. -/
def pySplit (sep s : Str) : List Str := pySplitF (s.length + 1) sep s

/-- Fuel version of Python str.replace for a nonempty pattern:
replaces every occurrence, scanning left to right without overlap. -/
def pyReplaceF : Nat → Str → Str → Str → Str
  | 0, _, _, s => s
  | fuel+1, pat, rep, s =>
    match s with
    | [] => []
    | x :: xs =>
      if pat ≠ [] ∧ pat.isPrefixOf (x :: xs) = true then
        rep ++ pyReplaceF fuel pat rep (List.drop pat.length (x :: xs))
      else
        x :: pyReplaceF fuel pat rep xs

/-- Python str.replace for a nonempty pattern; the program only calls it
with the patterns .git, a task description placeholder and an issue
number placeholder, none of which is empty. -/
def pyReplace (pat rep s : Str) : Str := pyReplaceF (s.length + 1) pat rep s

/-- Python str.strip with no argument: remove leading and trailing
whitespace (modelled with the ASCII whitespace predicate). -/
def pyStrip (s : Str) : Str :=
  ((s.dropWhile Char.isWhitespace).reverse.dropWhile Char.isWhitespace).reverse

/-- Tail of a valid Python integer digit string: digits, with single
underscores allowed only between digits. -/
def digitsTail : Str → Bool
  | [] => true
  | '_' :: c :: rest => c.isDigit && digitsTail rest
  | c :: rest => c.isDigit && digitsTail rest

/-- Numeric value of a digit string, skipping the underscores. -/
def digitsVal (s : Str) : Nat :=
  s.foldl (fun a c => if c = '_' then a else a * 10 + (c.toNat - 48)) 0

/-- Unsigned part of the Python int constructor: a nonempty digit string
with single underscores between digits. -/
def pyDigits (s : Str) : Option Nat :=
  match s with
  | [] => none
  | c :: rest =>
    if c.isDigit && digitsTail rest then some (digitsVal (c :: rest)) else none

/-- Python int applied to a string: strip whitespace, then an optional
sign followed by a nonempty digit string; anything else raises
ValueError, modelled as none. -/
def pyInt (s : Str) : Option Int :=
  match pyStrip s with
  | '+' :: rest => (pyDigits rest).map (fun n => (n : Int))
  | '-' :: rest => (pyDigits rest).map (fun n => -(n : Int))
  | t => (pyDigits t).map (fun n => (n : Int))

/-- Decimal digits of a natural number, high digit first, with fuel. -/
def natChars : Nat → Nat → Str
  | 0, _ => []
  | _+1, 0 => []
  | fuel+1, n+1 => natChars fuel ((n+1) / 10) ++ [Char.ofNat (48 + (n+1) % 10)]

/-- Python str of a nonnegative integer. -/
def pyStrNat (n : Nat) : Str := if n = 0 then ['0'] else natChars (n + 1) n

/-- Python str of an integer. -/
def pyStr : Int → Str
  | Int.ofNat n => pyStrNat n
  | Int.negSucc n => '-' :: pyStrNat (n + 1)

/-- Python substring membership test, as in the expression that checks
whether github.com occurs in the URL: true exactly when the pattern
occurs at some position of the string. -/
def pyContains (pat : Str) : Str → Bool
  | [] => pat.isPrefixOf []
  | x :: xs => pat.isPrefixOf (x :: xs) || pyContains pat xs

/-- The argv of the git remote lookup run by get_repo_info. -/
def gitCmd : List Str := [("git".data), ("remote".data), ("get-url".data), ("origin".data)]

/-- Parsing of the origin remote URL, lines 68 to 76 of agent.py: the
membership test for github.com, the SSH or HTTPS split, the removal of
every occurrence of .git, and the two field split on the slash.  The
index error from a missing second segment and the unpacking error from
a segment count other than two are swallowed by the surrounding try
block; both are modelled as none, as is a URL without github.com. -/
def parseGitUrl (url : Str) : Option (Str × Str) :=
  if pyContains ("github.com".data) url = true then
    match (if ("git@".data).isPrefixOf url = true
           then pySplit (":".data) url
           else pySplit ("github.com/".data) url)[1]? with
    | none => none
    | some path =>
      match pySplit ("/".data) (pyReplace (".git".data) [] path) with
      | [ow, rp] => some (ow, rp)
      | _ => none
  else none

/-- Environment of one program run: everything agent.py reads from the
outside world.  The field gitOut is the stdout of the git remote lookup
(none models an exception raised while running it), and exec gives the
exit code the spawned child process with the given argv will report. -/
structure Env where
  scriptDir : Str
  configExists : Bool
  configVal : Str
  prompt? : Str → Option Str
  gitOut : Option Str
  exec : List Str → Int

/-- Model of get_repo_info, lines 60 to 79: run the git remote lookup,
strip its stdout and parse it; every failure gives none, which stands
for the Python pair of two None values. -/
def get_repo_info (env : Env) : Option (Str × Str) :=
  match env.gitOut with
  | none => none
  | some out => parseGitUrl (pyStrip out)

/-- Child processes started by get_repo_info: the git remote lookup,
unless the lookup raised before a process was created. -/
def gitSpawn (env : Env) : List (List Str) :=
  match env.gitOut with
  | none => []
  | some _ => [gitCmd]

/-- Path of the configuration file, SCRIPT_DIR/.agent/config.yml. -/
def CONFIG_PATH (env : Env) : Str := env.scriptDir ++ ("/.agent/config.yml".data)

/-- Path of a prompt template, SCRIPT_DIR/.agent/prompts/name.md. -/
def promptPath (env : Env) (name : Str) : Str :=
  env.scriptDir ++ ("/.agent/prompts/".data) ++ name ++ (".md".data)

/-- Message printed by load_config when the configuration is missing. -/
def configMsg (env : Env) : Str := ("Config not found at ".data) ++ CONFIG_PATH env

/-- Message printed by load_prompt when a template is missing. -/
def promptMsg (env : Env) (name : Str) : Str :=
  ("Prompt not found: ".data) ++ promptPath env name

/-- Command line built by run_claude_code: claude, then the print flag
when requested, then the prompt as a single argument. -/
def claudeCmd (printOnly : Bool) (prompt : Str) : List Str :=
  ("claude".data) :: (if printOnly then [("--print".data), prompt] else [prompt])

/-- Separator line of fifty dashes printed by run_claude_code. -/
def dashLine : Str := List.replicate 50 '-'

/-- First line printed by run_claude_code. -/
def runMsg (printOnly : Bool) : Str :=
  ("Running: claude ".data) ++ (if printOnly then ("--print ".data) else [])
    ++ ("<prompt>".data)

/-- Result of a subcommand handler: a normal return of an exit code, a
call of sys.exit from inside load_prompt, or an uncaught ValueError. -/
inductive HRes where
  | ret (code : Int)
  | exit (code : Int)
  | valueError
deriving DecidableEq

/-- Effects of a subcommand handler: printed lines, argv of each child
process started, and how the handler finished. -/
structure HOut where
  out : List Str
  spawned : List (List Str)
  res : HRes
deriving DecidableEq

/-- Final status of the process: an exit code, or an uncaught
ValueError, which makes the interpreter print a traceback. -/
inductive TermStatus where
  | exited (code : Int)
  | uncaughtValueError
deriving DecidableEq

/-- Observable behaviour of one program run. -/
structure Trace where
  output : List Str
  spawned : List (List Str)
  result : TermStatus
deriving DecidableEq

/-- Reference to the issue used in the implement prompt, line 85: the
hash form when the git lookup produced a truthy owner, the words issue N
otherwise; an empty owner string is falsy in Python. -/
def issueRefOf (env : Env) (issue : Int) : Str :=
  match get_repo_info env with
  | some (ow, _) =>
    if ow = [] then ("issue ".data) ++ pyStr issue else ("#".data) ++ pyStr issue
  | none => ("issue ".data) ++ pyStr issue

/-- Prompt composed by cmd_implement, lines 89 to 101: the two literal
substitutions are applied to two separate copies of the template and
both copies appear in the final prompt. -/
def implementPrompt (base : Str) (issue : Int) (issueRef : Str) : Str :=
  ("Read GitHub issue ".data) ++ issueRef ++ (" and implement it.\n\n".data)
  ++ pyReplace ("\x7btask_description\x7d".data) (("See issue ".data) ++ issueRef) base
  ++ ("\n".data)
  ++ pyReplace ("\x7bissue_number\x7d".data) (pyStr issue) base
  ++ ("\n\nSteps:\n1. Read the issue to understand requirements\n2. Create branch: agent/".data)
  ++ pyStr issue
  ++ ("\n3. Implement the solution\n4. Run tests if applicable\n5. Commit with meaningful messages\n6. Create a PR linking to the issue\n".data)

/-- Prompt the implement subcommand would send, as a function of the
environment: none when the implement template is missing. -/
def implementPromptOf (env : Env) (issue : Int) : Option Str :=
  (env.prompt? ("implement".data)).map
    (fun base => implementPrompt base issue (issueRefOf env issue))

/-- Prompt composed by cmd_review, lines 110 to 119. -/
def reviewPrompt (template : Str) (pr : Int) : Str :=
  ("Review PR #".data) ++ pyStr pr ++ (" for this repository.\n\n".data)
  ++ template
  ++ ("\n\nSteps:\n1. Read the PR diff and description\n2. Check against the review criteria\n3. If issues found, post a review comment on the PR\n4. If LGTM, approve the PR (or post approval comment)\n".data)

/-- Prompt the review subcommand would send. -/
def reviewPromptOf (env : Env) (pr : Int) : Option Str :=
  (env.prompt? ("review".data)).map (fun t => reviewPrompt t pr)

/-- Prompt composed by cmd_security_review, lines 128 to 134; its
template file is named security, not security-review. -/
def securityPrompt (template : Str) (pr : Int) : Str :=
  ("Perform a security review of PR #".data) ++ pyStr pr ++ (".\n\n".data)
  ++ template
  ++ ("\n\nThis is a SECURITY review - be thorough and paranoid.\nPost findings as a review comment on the PR.\n".data)

/-- Prompt the security-review subcommand would send. -/
def securityPromptOf (env : Env) (pr : Int) : Option Str :=
  (env.prompt? ("security".data)).map (fun t => securityPrompt t pr)

/-- Handler of the implement subcommand, lines 82 to 103: look up the
repository, pick the issue reference, load the template, compose the
prompt and run the agent synchronously, returning its exit code. -/
def cmd_implement (env : Env) (config : Str) (issue : Int) (printOnly : Bool) : HOut :=
  match implementPromptOf env issue with
  | none => ⟨[promptMsg env ("implement".data)], gitSpawn env, HRes.exit 1⟩
  | some prompt =>
    ⟨[runMsg printOnly, dashLine],
     gitSpawn env ++ [claudeCmd printOnly prompt],
     HRes.ret (env.exec (claudeCmd printOnly prompt))⟩

/-- Handler of the review subcommand, lines 106 to 121. -/
def cmd_review (env : Env) (config : Str) (pr : Int) (printOnly : Bool) : HOut :=
  match reviewPromptOf env pr with
  | none => ⟨[promptMsg env ("review".data)], [], HRes.exit 1⟩
  | some prompt =>
    ⟨[runMsg printOnly, dashLine], [claudeCmd printOnly prompt],
     HRes.ret (env.exec (claudeCmd printOnly prompt))⟩

/-- Handler of the security-review subcommand, lines 124 to 136. -/
def cmd_security_review (env : Env) (config : Str) (pr : Int) (printOnly : Bool) : HOut :=
  match securityPromptOf env pr with
  | none => ⟨[promptMsg env ("security".data)], [], HRes.exit 1⟩
  | some prompt =>
    ⟨[runMsg printOnly, dashLine], [claudeCmd printOnly prompt],
     HRes.ret (env.exec (claudeCmd printOnly prompt))⟩

/-- Hardcoded per issue prompt of cmd_batch, line 147. -/
def batchPrompt (issue : Int) : Str :=
  ("Read GitHub issue #".data) ++ pyStr issue
  ++ (" and implement it. Create branch agent/".data) ++ pyStr issue
  ++ (", implement, and create a PR.".data)

/-- Command line of one batch child, line 148. -/
def batchCmd (issue : Int) : List Str :=
  [("claude".data), ("--print".data), batchPrompt issue]

/-- Issue list parsing of cmd_batch, line 141: each comma separated
token is stripped and fed to int; the first bad token raises ValueError,
modelled as none, before anything is printed or spawned. -/
def parseIssuesList : List Str → Option (List Int)
  | [] => some []
  | t :: ts =>
    match pyInt (pyStrip t), parseIssuesList ts with
    | some n, some ns => some (n :: ns)
    | _, _ => none

/-- Issue numbers of the batch subcommand from its comma separated
argument. -/
def parseIssues (s : Str) : Option (List Int) := parseIssuesList (pySplit (",".data) s)

/-- Line printed when a batch child is started. -/
def startLine (issue : Int) : Str :=
  ("  Starting issue #".data) ++ pyStr issue ++ ("...".data)

/-- Per issue status line printed after the wait, line 158: done exactly
when the exit code of that child is zero. -/
def statusLine (env : Env) (issue : Int) : Str :=
  ("  Issue #".data) ++ pyStr issue ++ (": ".data)
  ++ (if env.exec (batchCmd issue) = 0 then ("done".data) else ("failed".data))

/-- First line printed by cmd_batch. -/
def dispatchLine (n : Nat) : Str :=
  ("Dispatching ".data) ++ pyStrNat n ++ (" tasks...".data)

/-- Line printed before the wait loop of cmd_batch. -/
def waitLine : Str := ("\nWaiting for all tasks to complete...".data)

/-- Handler of the batch subcommand, lines 139 to 160: parse the issue
list, start one child per issue, wait for the children in input order,
report a status per issue, and return zero. -/
def cmd_batch (env : Env) (config : Str) (issuesArg : Str) : HOut :=
  match parseIssues issuesArg with
  | none => ⟨[], [], HRes.valueError⟩
  | some is =>
    ⟨dispatchLine is.length :: (is.map startLine ++ (waitLine :: is.map (statusLine env))),
     is.map batchCmd, HRes.ret 0⟩

/-- Parsed subcommand with its numeric argument. -/
inductive Cmd where
  | implem (issue : Int)
  | review (pr : Int)
  | security (pr : Int)
  | batch (issues : Str)
deriving DecidableEq

/-- Parsed command line. -/
structure Args where
  provider : Str
  printOnly : Bool
  cmd : Cmd
deriving DecidableEq

/-- Global options while scanning argv. -/
structure GOpts where
  provider : Str
  printOnly : Bool
deriving DecidableEq

/-- Defaults of the two global options, lines 177 to 186. -/
def defaultGOpts : GOpts := ⟨("claude-code".data), false⟩

/-- Scan of the global options in front of the subcommand.  This models
the argparse parser of main for the canonical spellings used in the
documentation of the program: each option is a token of its own and the
provider value is the following token.  Argparse abbreviations and the
equals sign forms are outside the model. -/
def parseGlobals : GOpts → List Str → Except Str (GOpts × List Str)
  | g, [] => Except.ok (g, [])
  | g, [t] =>
    if t = ("--provider".data) then
      Except.error ("usage: argument --provider: expected one argument".data)
    else if t = ("--print-only".data) then Except.ok (⟨g.provider, true⟩, [])
    else Except.ok (g, [t])
  | g, t :: v :: rest =>
    if t = ("--provider".data) then parseGlobals ⟨v, g.printOnly⟩ rest
    else if t = ("--print-only".data) then parseGlobals ⟨g.provider, true⟩ (v :: rest)
    else Except.ok (g, t :: v :: rest)

/-- Parsing of the single required numeric option of a subparser; the
value goes through int, as argparse does for type int.  Any other token
arrangement is an argparse usage error. -/
def parseNumOpt (long short : Str) (toks : List Str) : Except Str Int :=
  match toks with
  | [f, v] =>
    if f = long ∨ f = short then
      match pyInt v with
      | some n => Except.ok n
      | none => Except.error ("usage: argument: invalid int value".data)
    else Except.error ("usage: unrecognized or missing arguments".data)
  | _ => Except.error ("usage: unrecognized or missing arguments".data)

/-- Model of parser.parse_args for the parser built in main, lines 163
to 206: global options, then a required subcommand out of four choices,
then the required option of that subcommand.  Every parse failure makes
argparse print a usage message and exit with code 2. -/
def parseArgs (argv : List Str) : Except Str Args :=
  match parseGlobals defaultGOpts argv with
  | Except.error e => Except.error e
  | Except.ok (g, rest) =>
    match rest with
    | [] => Except.error ("usage: the following arguments are required: command".data)
    | c :: ctoks =>
      if c = ("implement".data) then
        match parseNumOpt ("--issue".data) ("-i".data) ctoks with
        | Except.ok n => Except.ok ⟨g.provider, g.printOnly, Cmd.implem n⟩
        | Except.error e => Except.error e
      else if c = ("review".data) then
        match parseNumOpt ("--pr".data) ("-p".data) ctoks with
        | Except.ok n => Except.ok ⟨g.provider, g.printOnly, Cmd.review n⟩
        | Except.error e => Except.error e
      else if c = ("security-review".data) then
        match parseNumOpt ("--pr".data) ("-p".data) ctoks with
        | Except.ok n => Except.ok ⟨g.provider, g.printOnly, Cmd.security n⟩
        | Except.error e => Except.error e
      else if c = ("batch".data) then
        match ctoks with
        | [f, v] =>
          if f = ("--issues".data) then Except.ok ⟨g.provider, g.printOnly, Cmd.batch v⟩
          else Except.error ("usage: unrecognized or missing arguments".data)
        | _ => Except.error ("usage: unrecognized or missing arguments".data)
      else Except.error (("usage: invalid choice: ".data) ++ c)

/-- Exit status produced by sys.exit on the handler result. -/
def resultOf : HRes → TermStatus
  | HRes.ret c => TermStatus.exited c
  | HRes.exit c => TermStatus.exited c
  | HRes.valueError => TermStatus.uncaughtValueError

/-- Dispatch table of main, lines 216 to 221: the parsed subcommand
always hits one of the four handlers, so the print help fallback on
lines 226 to 228 is dead code and has no counterpart here. -/
def dispatch (env : Env) (config : Str) (a : Args) : HOut :=
  match a.cmd with
  | Cmd.implem n => cmd_implement env config n a.printOnly
  | Cmd.review n => cmd_review env config n a.printOnly
  | Cmd.security n => cmd_security_review env config n a.printOnly
  | Cmd.batch s => cmd_batch env config s

/-- Three lines printed for an unsupported provider, lines 211 to 213. -/
def providerLines (p : Str) : List Str :=
  [("Provider \x27".data) ++ p ++ ("\x27 not yet implemented.".data),
   ("Currently only claude-code (Max subscription) is supported.".data),
   ("Other providers can be added to scripts/agent.py as needed.".data)]

/-- Model of main, lines 163 to 228: parse argv, load the configuration
(only its existence matters to the rest of the run), reject any provider
other than claude-code, then run the handler and exit with its result. -/
def mainRun (env : Env) (argv : List Str) : Trace :=
  match parseArgs argv with
  | Except.error e => ⟨[e], [], TermStatus.exited 2⟩
  | Except.ok a =>
    if env.configExists then
      if a.provider = ("claude-code".data) then
        let h := dispatch env env.configVal a
        ⟨h.out, h.spawned, resultOf h.res⟩
      else ⟨providerLines a.provider, [], TermStatus.exited 1⟩
    else ⟨[configMsg env], [], TermStatus.exited 1⟩

/-- SSH form of a GitHub remote URL for a given owner and repository. -/
def sshUrl (o r : Str) : Str :=
  ("git@github.com".data) ++ ':' :: (o ++ '/' :: (r ++ (".git".data)))

/-- HTTPS form of a GitHub remote URL for the same owner and repository. -/
def httpsUrl (o r : Str) : Str :=
  ("https://".data) ++ (("github.com/".data) ++ (o ++ '/' :: (r ++ (".git".data))))

/-- Global option tokens corresponding to a print only choice. -/
def goptsArgv (po : Bool) : List Str := if po then [("--print-only".data)] else []

/-- Demonstration environment: configuration present, empty templates,
an SSH origin remote, every child exiting with code zero. -/
def envDemo : Env :=
  ⟨("/repo".data), true, [], fun _ => some [],
   some ("git@github.com:owner/repo.git".data), fun _ => 0⟩

/-- Environment with a missing configuration file. -/
def envNoConfig : Env :=
  ⟨("/repo".data), false, [], fun _ => some [], none, fun _ => 0⟩

/-- Environment with every prompt template missing but a working git
remote lookup. -/
def envNoPrompt : Env :=
  ⟨("/repo".data), true, [], fun _ => none,
   some ("git@github.com:owner/repo.git".data), fun _ => 0⟩

/-- Environment whose git remote lookup raises. -/
def envNoGit : Env :=
  ⟨("/repo".data), true, [], fun _ => some [], none, fun _ => 0⟩

/-- Environment with one configuration document. -/
def envCfgA : Env :=
  ⟨("/repo".data), true, ("alpha: 1".data), fun _ => some [], none, fun _ => 0⟩

/-- Environment identical to envCfgA except for the configuration
document. -/
def envCfgB : Env :=
  ⟨("/repo".data), true, ("beta: 2".data), fun _ => some [], none, fun _ => 0⟩

/-- Environment in which the child for issue 2 fails and every other
child succeeds. -/
def envB : Env :=
  ⟨("/repo".data), true, [], fun _ => some [], none,
   fun c => if c = batchCmd 2 then 1 else 0⟩

/-- Environment in which every child exits with code 3. -/
def envExit3 : Env :=
  ⟨("/repo".data), true, [], fun _ => some [], none, fun _ => 3⟩

/-- The empty pattern is a prefix of every string. -/
theorem hp_nil (l : Str) : List.isPrefixOf ([] : Str) l = true := by
  cases l <;> rfl

/-- Every string is a prefix of itself followed by anything. -/
theorem hp_append (p : Str) (t : Str) : p.isPrefixOf (p ++ t) = true := by
  induction p with
  | nil => cases t <;> rfl
  | cons c cs ih => simp [List.isPrefixOf, ih]

/-- A pattern whose head differs from the head of the string is not a
prefix of it. -/
theorem hp_ne {c d : Char} (cs l : Str) (h : c ≠ d) :
    (c :: cs).isPrefixOf (d :: l) = false := by
  simp [List.isPrefixOf, h]

/-- A prefix can be split off the string it starts. -/
theorem hp_exists : ∀ (p l : Str), p.isPrefixOf l = true → ∃ t, l = p ++ t := by
  intro p
  induction p with
  | nil => intro l _; exact ⟨l, rfl⟩
  | cons c cs ih =>
    intro l h
    cases l with
    | nil => simp [List.isPrefixOf] at h
    | cons d l2 =>
      have hcd : c = d ∧ cs.isPrefixOf l2 = true := by
        simpa [List.isPrefixOf] using h
      obtain ⟨t, ht⟩ := ih l2 hcd.2
      exact ⟨t, by rw [hcd.1, ht]; rfl⟩

/-- A suffix of an append that is at least as long as the second part
splits as a suffix of the first part followed by the second part. -/
theorem suffix_split {t a m : Str} (h : t <:+ a ++ m) (hl : m.length ≤ t.length) :
    ∃ u : Str, u <:+ a ∧ t = u ++ m := by
  obtain ⟨p, hp⟩ := h
  have hlen : p.length + t.length = a.length + m.length := by
    have h2 := congrArg List.length hp
    simpa [List.length_append] using h2
  have hpa : p.length ≤ a.length := by omega
  have h3 := congrArg (List.drop p.length) hp
  rw [List.drop_left, List.drop_append_of_le_length hpa] at h3
  exact ⟨List.drop p.length a, List.drop_suffix _ _, h3⟩

/-- A suffix of an append that is at most as long as the second part is
a suffix of the second part. -/
theorem suffix_short {t a m : Str} (h : t <:+ a ++ m) (hl : t.length ≤ m.length) :
    t <:+ m := by
  obtain ⟨p, hp⟩ := h
  have hlen : p.length + t.length = a.length + m.length := by
    have h2 := congrArg List.length hp
    simpa [List.length_append] using h2
  have hap : a.length ≤ p.length := by omega
  have h3 := congrArg (List.drop p.length) hp
  rw [List.drop_left] at h3
  have h4 : p.length = a.length + (p.length - a.length) := by omega
  rw [h4, List.drop_append] at h3
  rw [h3]
  exact List.drop_suffix _ _

/-- Two decompositions of one string around the same separator
character agree when neither left part contains that character. -/
theorem append_cons_cancel {c : Char} : ∀ (x u y v : Str), c ∉ x → c ∉ u →
    x ++ c :: y = u ++ c :: v → x = u ∧ y = v := by
  intro x
  induction x with
  | nil =>
    intro u y v _ hu h
    cases u with
    | nil => simpa using h
    | cons d u2 =>
      simp only [List.nil_append, List.cons_append, List.cons.injEq] at h
      exact absurd (h.1 ▸ List.mem_cons_self d u2) hu
  | cons e x2 ih =>
    intro u y v hx hu h
    cases u with
    | nil =>
      simp only [List.cons_append, List.nil_append, List.cons.injEq] at h
      exact absurd (h.1 ▸ List.mem_cons_self e x2) (h.1 ▸ hx)
    | cons d u2 =>
      simp only [List.cons_append, List.cons.injEq] at h
      have hx2 : c ∉ x2 := fun hm => hx (List.mem_cons_of_mem e hm)
      have hu2 : c ∉ u2 := fun hm => hu (List.mem_cons_of_mem d hm)
      obtain ⟨h1, h2⟩ := ih u2 y v hx2 hu2 h.2
      exact ⟨by rw [h.1, h1], h2⟩

/-- The membership test succeeds when the pattern starts the string. -/
theorem pyContains_of_here (pat s : Str) (h : pat.isPrefixOf s = true) :
    pyContains pat s = true := by
  cases s with
  | nil => simpa [pyContains] using h
  | cons x xs => simp [pyContains, h]

/-- The membership test succeeds on a longer string. -/
theorem pyContains_cons (pat : Str) (x : Char) (xs : Str) (h : pyContains pat xs = true) :
    pyContains pat (x :: xs) = true := by
  simp [pyContains, h]

/-- The membership test succeeds whenever the pattern occurs. -/
theorem pyContains_append (pre pat rest : Str) :
    pyContains pat (pre ++ (pat ++ rest)) = true := by
  induction pre with
  | nil => exact pyContains_of_here _ _ (hp_append pat rest)
  | cons x xs ih => exact pyContains_cons _ _ _ ih

/-- Splitting a string that contains no separator occurrence keeps it
in one piece. -/
theorem pySplitF_no_occ (sep : Str) : ∀ (s : Str) (fuel : Nat), s.length < fuel →
    (∀ t : Str, t <:+ s → sep.isPrefixOf t = false) → pySplitF fuel sep s = [s] := by
  intro s
  induction s with
  | nil =>
    intro fuel hf _
    cases fuel with
    | zero => omega
    | succ f => rfl
  | cons x xs ih =>
    intro fuel hf hno
    cases fuel with
    | zero => omega
    | succ f =>
      have hx : sep.isPrefixOf (x :: xs) = false := hno _ (List.suffix_refl _)
      simp only [pySplitF]
      rw [if_neg (by rw [hx]; rintro ⟨-, h2⟩; cases h2)]
      have hxs : pySplitF f sep xs = [xs] := by
        apply ih
        · simp only [List.length_cons] at hf; omega
        · intro t ht; exact hno t (ht.trans (List.suffix_cons x xs))
      rw [hxs]

/-- Splitting around the first separator occurrence: when no occurrence
starts strictly before the marked one and none occurs after it, the
split has exactly the two marked segments. -/
theorem pySplitF_extract (sep : Str) (hsep : sep ≠ []) : ∀ (a : Str) (fuel : Nat) (b : Str),
    (a ++ (sep ++ b)).length < fuel →
    (∀ t : Str, t <:+ a ++ (sep ++ b) → (sep ++ b).length < t.length →
      sep.isPrefixOf t = false) →
    (∀ t : Str, t <:+ b → sep.isPrefixOf t = false) →
    pySplitF fuel sep (a ++ (sep ++ b)) = [a, b] := by
  intro a
  induction a with
  | nil =>
    intro fuel b hf h1 h2
    cases fuel with
    | zero => omega
    | succ f =>
      cases sep with
      | nil => exact absurd rfl hsep
      | cons c cs =>
        show pySplitF (f + 1) (c :: cs) (c :: (cs ++ b)) = [[], b]
        simp only [pySplitF]
        rw [if_pos ⟨List.cons_ne_nil c cs, hp_append (c :: cs) b⟩]
        rw [show List.drop (c :: cs).length (c :: (cs ++ b)) = b from List.drop_left (c :: cs) b]
        have hb : pySplitF f (c :: cs) b = [b] := by
          apply pySplitF_no_occ
          · simp only [List.nil_append, List.length_append, List.length_cons] at hf
            omega
          · exact h2
        rw [hb]
  | cons x a2 ih =>
    intro fuel b hf h1 h2
    cases fuel with
    | zero => omega
    | succ f =>
      show pySplitF (f + 1) sep (x :: (a2 ++ (sep ++ b))) = [x :: a2, b]
      have hx : sep.isPrefixOf (x :: (a2 ++ (sep ++ b))) = false := by
        apply h1 _ (List.suffix_refl _)
        simp only [List.cons_append, List.length_cons, List.length_append]
        omega
      simp only [pySplitF]
      rw [if_neg (by rw [hx]; rintro ⟨-, hcon⟩; cases hcon)]
      have hrec : pySplitF f sep (a2 ++ (sep ++ b)) = [a2, b] := by
        apply ih
        · simp only [List.cons_append, List.length_cons, List.length_append] at hf ⊢
          omega
        · intro t ht hl
          exact h1 t (ht.trans (List.suffix_cons x _)) hl
        · exact h2
      rw [hrec]

/-- Wrapper of the extraction lemma for the fuelled split. -/
theorem pySplit_extract (sep a b : Str) (hsep : sep ≠ [])
    (h1 : ∀ t : Str, t <:+ a ++ (sep ++ b) → (sep ++ b).length < t.length →
      sep.isPrefixOf t = false)
    (h2 : ∀ t : Str, t <:+ b → sep.isPrefixOf t = false) :
    pySplit sep (a ++ (sep ++ b)) = [a, b] :=
  pySplitF_extract sep hsep a ((a ++ (sep ++ b)).length + 1) b (by omega) h1 h2

/-- Splitting the SSH form on the colon isolates the host part and the
owner slash repository path when neither name contains a colon. -/
theorem split_ssh (o r : Str) (ho1 : ':' ∉ o) (hr1 : ':' ∉ r) :
    pySplit (":".data) (sshUrl o r)
      = [("git@github.com".data), o ++ '/' :: (r ++ (".git".data))] := by
  show pySplit (":".data)
      (("git@github.com".data) ++ ((":".data) ++ (o ++ '/' :: (r ++ (".git".data)))))
    = [("git@github.com".data), o ++ '/' :: (r ++ (".git".data))]
  apply pySplit_extract
  · decide
  · intro t ht hl
    obtain ⟨u, hu, rfl⟩ := suffix_split ht hl.le
    cases u with
    | nil => simp at hl
    | cons c u2 =>
      have hc : c ∈ ("git@github.com".data) := hu.subset (List.mem_cons_self c u2)
      have hcne : ':' ≠ c := by
        intro h
        rw [← h] at hc
        exact absurd hc (by decide)
      exact hp_ne _ _ hcne
  · intro t ht
    cases t with
    | nil => rfl
    | cons c t2 =>
      have hc : c ∈ o ++ '/' :: (r ++ (".git".data)) := ht.subset (List.mem_cons_self c t2)
      have hcne : ':' ≠ c := by
        intro h
        rw [← h] at hc
        rcases List.mem_append.mp hc with h1 | h2
        · exact ho1 h1
        · rcases List.mem_cons.mp h2 with h3 | h4
          · exact absurd h3 (by decide)
          · rcases List.mem_append.mp h4 with h5 | h6
            · exact hr1 h5
            · exact absurd h6 (by decide)
      exact hp_ne _ _ hcne

/-- Splitting the HTTPS form on the host marker isolates the scheme and
the owner slash repository path when the owner contains neither a slash
nor a dot and the repository contains no slash. -/
theorem split_https (o r : Str) (ho2 : '/' ∉ o) (ho3 : '.' ∉ o) (hr2 : '/' ∉ r) :
    pySplit ("github.com/".data) (httpsUrl o r)
      = [("https://".data), o ++ '/' :: (r ++ (".git".data))] := by
  show pySplit ("github.com/".data)
      (("https://".data) ++ (("github.com/".data) ++ (o ++ '/' :: (r ++ (".git".data)))))
    = [("https://".data), o ++ '/' :: (r ++ (".git".data))]
  apply pySplit_extract
  · decide
  · intro t ht hl
    obtain ⟨u, hu, rfl⟩ := suffix_split ht hl.le
    cases u with
    | nil => simp at hl
    | cons c u2 =>
      have hc : c ∈ ("https://".data) := hu.subset (List.mem_cons_self c u2)
      have hcne : 'g' ≠ c := by
        intro h
        rw [← h] at hc
        exact absurd hc (by decide)
      exact hp_ne _ _ hcne
  · intro t ht
    cases hpt : ("github.com/".data).isPrefixOf t with
    | false => rfl
    | true =>
      exfalso
      obtain ⟨t2, rfl⟩ := hp_exists _ _ hpt
      rcases le_or_lt ('/' :: (r ++ (".git".data))).length ((("github.com/".data) ++ t2).length)
        with hge | hlt
      · obtain ⟨u, hu, heq⟩ := suffix_split ht hge
        have heq2 : ("github.com".data) ++ '/' :: t2 = u ++ '/' :: (r ++ (".git".data)) := heq
        have hsg : '/' ∉ ("github.com".data) := by decide
        have hsu : '/' ∉ u := fun hm => ho2 (hu.subset hm)
        obtain ⟨h1, h2⟩ := append_cons_cancel _ _ _ _ hsg hsu heq2
        have hdot : '.' ∈ u := by
          rw [← h1]; decide
        exact ho3 (hu.subset hdot)
      · have hb : o ++ '/' :: (r ++ (".git".data)) = (o ++ ['/']) ++ (r ++ (".git".data)) := by
          simp [List.append_assoc]
        rw [hb] at ht
        have hsub : ("github.com/".data) ++ t2 <:+ r ++ (".git".data) := by
          apply suffix_short ht
          simp only [List.length_cons] at hlt
          simp only [List.length_append] at hlt ⊢
          omega
        have hm : '/' ∈ ("github.com/".data) ++ t2 :=
          List.mem_append_left _ (by decide)
        have hmem := hsub.subset hm
        rcases List.mem_append.mp hmem with h1 | h2
        · exact hr2 h1
        · exact absurd h2 (by decide)

/-- Parse of the implement subcommand from its canonical tokens. -/
theorem parseArgs_implement (po : Bool) (v : Str) (n : Int) (hv : pyInt v = some n) :
    parseArgs (goptsArgv po ++ [("implement".data), ("--issue".data), v])
      = Except.ok ⟨("claude-code".data), po, Cmd.implem n⟩ := by
  cases po with
  | false =>
    have h2 : parseArgs (goptsArgv false ++ [("implement".data), ("--issue".data), v])
        = (match (match pyInt v with
                  | some m => Except.ok m
                  | none => Except.error ("usage: argument: invalid int value".data)) with
           | Except.ok m => Except.ok (⟨("claude-code".data), false, Cmd.implem m⟩ : Args)
           | Except.error e => Except.error e) := rfl
    rw [h2, hv]
  | true =>
    have h2 : parseArgs (goptsArgv true ++ [("implement".data), ("--issue".data), v])
        = (match (match pyInt v with
                  | some m => Except.ok m
                  | none => Except.error ("usage: argument: invalid int value".data)) with
           | Except.ok m => Except.ok (⟨("claude-code".data), true, Cmd.implem m⟩ : Args)
           | Except.error e => Except.error e) := rfl
    rw [h2, hv]

/-- Parse of the review subcommand from its canonical tokens. -/
theorem parseArgs_review (po : Bool) (v : Str) (n : Int) (hv : pyInt v = some n) :
    parseArgs (goptsArgv po ++ [("review".data), ("--pr".data), v])
      = Except.ok ⟨("claude-code".data), po, Cmd.review n⟩ := by
  cases po with
  | false =>
    have h2 : parseArgs (goptsArgv false ++ [("review".data), ("--pr".data), v])
        = (match (match pyInt v with
                  | some m => Except.ok m
                  | none => Except.error ("usage: argument: invalid int value".data)) with
           | Except.ok m => Except.ok (⟨("claude-code".data), false, Cmd.review m⟩ : Args)
           | Except.error e => Except.error e) := rfl
    rw [h2, hv]
  | true =>
    have h2 : parseArgs (goptsArgv true ++ [("review".data), ("--pr".data), v])
        = (match (match pyInt v with
                  | some m => Except.ok m
                  | none => Except.error ("usage: argument: invalid int value".data)) with
           | Except.ok m => Except.ok (⟨("claude-code".data), true, Cmd.review m⟩ : Args)
           | Except.error e => Except.error e) := rfl
    rw [h2, hv]

/-- Parse of the security-review subcommand from its canonical tokens. -/
theorem parseArgs_security (po : Bool) (v : Str) (n : Int) (hv : pyInt v = some n) :
    parseArgs (goptsArgv po ++ [("security-review".data), ("--pr".data), v])
      = Except.ok ⟨("claude-code".data), po, Cmd.security n⟩ := by
  cases po with
  | false =>
    have h2 : parseArgs (goptsArgv false ++ [("security-review".data), ("--pr".data), v])
        = (match (match pyInt v with
                  | some m => Except.ok m
                  | none => Except.error ("usage: argument: invalid int value".data)) with
           | Except.ok m => Except.ok (⟨("claude-code".data), false, Cmd.security m⟩ : Args)
           | Except.error e => Except.error e) := rfl
    rw [h2, hv]
  | true =>
    have h2 : parseArgs (goptsArgv true ++ [("security-review".data), ("--pr".data), v])
        = (match (match pyInt v with
                  | some m => Except.ok m
                  | none => Except.error ("usage: argument: invalid int value".data)) with
           | Except.ok m => Except.ok (⟨("claude-code".data), true, Cmd.security m⟩ : Args)
           | Except.error e => Except.error e) := rfl
    rw [h2, hv]

/-- Parse of the batch subcommand from its canonical tokens. -/
theorem parseArgs_batch (po : Bool) (s : Str) :
    parseArgs (goptsArgv po ++ [("batch".data), ("--issues".data), s])
      = Except.ok ⟨("claude-code".data), po, Cmd.batch s⟩ := by
  cases po <;> rfl

/-- Parse of a provider option in front of a subcommand. -/
theorem parseArgs_provider_review (p v : Str) (n : Int) (hv : pyInt v = some n) :
    parseArgs [("--provider".data), p, ("review".data), ("--pr".data), v]
      = Except.ok ⟨p, false, Cmd.review n⟩ := by
  have h2 : parseArgs [("--provider".data), p, ("review".data), ("--pr".data), v]
      = (match (match pyInt v with
                | some m => Except.ok m
                | none => Except.error ("usage: argument: invalid int value".data)) with
         | Except.ok m => Except.ok (⟨p, false, Cmd.review m⟩ : Args)
         | Except.error e => Except.error e) := rfl
  rw [h2, hv]

/-- A failing parse makes the program exit with code 2 after printing
the argparse message. -/
theorem mainRun_error (env : Env) (argv : List Str) (e : Str)
    (hp : parseArgs argv = Except.error e) :
    mainRun env argv = ⟨[e], [], TermStatus.exited 2⟩ := by
  unfold mainRun
  rw [hp]

/-- A successful parse with a missing configuration file exits with
code 1 after the configuration message, with nothing else done. -/
theorem mainRun_noconfig (env : Env) (argv : List Str) (a : Args)
    (hp : parseArgs argv = Except.ok a) (hc : env.configExists = false) :
    mainRun env argv = ⟨[configMsg env], [], TermStatus.exited 1⟩ := by
  unfold mainRun
  rw [hp]
  dsimp only
  rw [hc, if_neg (show ¬(false = true) from by decide)]

/-- A successful parse with an unsupported provider exits with code 1
after the three provider lines, with nothing else done. -/
theorem mainRun_provider (env : Env) (argv : List Str) (a : Args)
    (hp : parseArgs argv = Except.ok a) (hc : env.configExists = true)
    (hpr : a.provider ≠ ("claude-code".data)) :
    mainRun env argv = ⟨providerLines a.provider, [], TermStatus.exited 1⟩ := by
  unfold mainRun
  rw [hp]
  dsimp only
  rw [hc, if_pos rfl, if_neg hpr]

/-- A successful parse with the default provider and an existing
configuration runs the handler of the parsed subcommand. -/
theorem mainRun_dispatch (env : Env) (argv : List Str) (a : Args)
    (hp : parseArgs argv = Except.ok a) (hc : env.configExists = true)
    (hpr : a.provider = ("claude-code".data)) :
    mainRun env argv = ⟨(dispatch env env.configVal a).out,
      (dispatch env env.configVal a).spawned,
      resultOf (dispatch env env.configVal a).res⟩ := by
  unfold mainRun
  rw [hp]
  dsimp only
  rw [hc, if_pos rfl, hpr, if_pos rfl]

/-- An unknown subcommand token makes the parse fail with the invalid
choice message. -/
theorem parseArgs_badcmd (argv : List Str) (g : GOpts) (c : Str) (ctoks : List Str)
    (hg : parseGlobals defaultGOpts argv = Except.ok (g, c :: ctoks))
    (h1 : c ≠ ("implement".data)) (h2 : c ≠ ("review".data))
    (h3 : c ≠ ("security-review".data)) (h4 : c ≠ ("batch".data)) :
    parseArgs argv = Except.error (("usage: invalid choice: ".data) ++ c) := by
  unfold parseArgs
  rw [hg]
  dsimp only
  rw [if_neg h1, if_neg h2, if_neg h3, if_neg h4]

/-- The implement handler with an existing template composes the prompt
and returns the exit code of the agent child. -/
theorem cmd_implement_hit (env : Env) (config : Str) (i : Int) (po : Bool) (t : Str)
    (ht : env.prompt? ("implement".data) = some t) :
    cmd_implement env config i po
      = ⟨[runMsg po, dashLine],
         gitSpawn env ++ [claudeCmd po (implementPrompt t i (issueRefOf env i))],
         HRes.ret (env.exec (claudeCmd po (implementPrompt t i (issueRefOf env i))))⟩ := by
  unfold cmd_implement implementPromptOf
  rw [ht]
  rfl

/-- The implement handler with a missing template prints the message
and exits with code 1, after the git lookup has already run. -/
theorem cmd_implement_miss (env : Env) (config : Str) (i : Int) (po : Bool)
    (ht : env.prompt? ("implement".data) = none) :
    cmd_implement env config i po
      = ⟨[promptMsg env ("implement".data)], gitSpawn env, HRes.exit 1⟩ := by
  unfold cmd_implement implementPromptOf
  rw [ht]
  rfl

/-- The review handler with an existing template. -/
theorem cmd_review_hit (env : Env) (config : Str) (i : Int) (po : Bool) (t : Str)
    (ht : env.prompt? ("review".data) = some t) :
    cmd_review env config i po
      = ⟨[runMsg po, dashLine], [claudeCmd po (reviewPrompt t i)],
         HRes.ret (env.exec (claudeCmd po (reviewPrompt t i)))⟩ := by
  unfold cmd_review reviewPromptOf
  rw [ht]
  rfl

/-- The review handler with a missing template. -/
theorem cmd_review_miss (env : Env) (config : Str) (i : Int) (po : Bool)
    (ht : env.prompt? ("review".data) = none) :
    cmd_review env config i po
      = ⟨[promptMsg env ("review".data)], [], HRes.exit 1⟩ := by
  unfold cmd_review reviewPromptOf
  rw [ht]
  rfl

/-- The security review handler with an existing template. -/
theorem cmd_security_hit (env : Env) (config : Str) (i : Int) (po : Bool) (t : Str)
    (ht : env.prompt? ("security".data) = some t) :
    cmd_security_review env config i po
      = ⟨[runMsg po, dashLine], [claudeCmd po (securityPrompt t i)],
         HRes.ret (env.exec (claudeCmd po (securityPrompt t i)))⟩ := by
  unfold cmd_security_review securityPromptOf
  rw [ht]
  rfl

/-- The security review handler with a missing template. -/
theorem cmd_security_miss (env : Env) (config : Str) (i : Int) (po : Bool)
    (ht : env.prompt? ("security".data) = none) :
    cmd_security_review env config i po
      = ⟨[promptMsg env ("security".data)], [], HRes.exit 1⟩ := by
  unfold cmd_security_review securityPromptOf
  rw [ht]
  rfl

/-- The batch handler on a well formed issue list. -/
theorem cmd_batch_ok (env : Env) (config : Str) (s : Str) (is : List Int)
    (h : parseIssues s = some is) :
    cmd_batch env config s
      = ⟨dispatchLine is.length :: (is.map startLine ++ (waitLine :: is.map (statusLine env))),
         is.map batchCmd, HRes.ret 0⟩ := by
  unfold cmd_batch
  rw [h]

/-- The batch handler on a malformed issue list raises before printing
or spawning anything. -/
theorem cmd_batch_raise (env : Env) (config : Str) (s : Str)
    (h : parseIssues s = none) :
    cmd_batch env config s = ⟨[], [], HRes.valueError⟩ := by
  unfold cmd_batch
  rw [h]

/-- A successfully parsed issue list has one number per comma separated
token. -/
theorem parseIssuesList_length : ∀ (l : List Str) (is : List Int),
    parseIssuesList l = some is → is.length = l.length := by
  intro l
  induction l with
  | nil =>
    intro is h
    simp only [parseIssuesList, Option.some.injEq] at h
    rw [← h]
    rfl
  | cons t ts ih =>
    intro is h
    simp only [parseIssuesList] at h
    cases hpt : pyInt (pyStrip t) with
    | none =>
      simp only [hpt] at h
      exact Option.noConfusion h
    | some n =>
      cases hts : parseIssuesList ts with
      | none =>
        simp only [hpt, hts] at h
        exact Option.noConfusion h
      | some ns =>
        simp only [hpt, hts, Option.some.injEq] at h
        rw [← h]
        simp only [List.length_cons, ih ns hts]

/-- Claim C1: for the single task subcommands implement, review and
security-review the overall exit code of the program equals the exit
code reported by the spawned agent child, while for the batch
subcommand the program exits with code 0 once all children have been
waited on, whatever exit codes the children report. -/
theorem claim1_exit_code_echo (env : Env) (po : Bool) (v : Str) (n : Int) (s : Str)
    (hc : env.configExists = true) (hv : pyInt v = some n) :
    (∀ t, env.prompt? ("implement".data) = some t →
      (mainRun env (goptsArgv po ++ [("implement".data), ("--issue".data), v])).result
        = TermStatus.exited (env.exec (claudeCmd po (implementPrompt t n (issueRefOf env n)))))
    ∧ (∀ t, env.prompt? ("review".data) = some t →
      (mainRun env (goptsArgv po ++ [("review".data), ("--pr".data), v])).result
        = TermStatus.exited (env.exec (claudeCmd po (reviewPrompt t n))))
    ∧ (∀ t, env.prompt? ("security".data) = some t →
      (mainRun env (goptsArgv po ++ [("security-review".data), ("--pr".data), v])).result
        = TermStatus.exited (env.exec (claudeCmd po (securityPrompt t n))))
    ∧ (∀ is, parseIssues s = some is →
      (mainRun env (goptsArgv po ++ [("batch".data), ("--issues".data), s])).result
        = TermStatus.exited 0) := by
  refine ⟨?_, ?_, ?_, ?_⟩
  · intro t ht
    rw [mainRun_dispatch env _ _ (parseArgs_implement po v n hv) hc rfl]
    dsimp only [dispatch]
    rw [cmd_implement_hit env env.configVal n po t ht]
    rfl
  · intro t ht
    rw [mainRun_dispatch env _ _ (parseArgs_review po v n hv) hc rfl]
    dsimp only [dispatch]
    rw [cmd_review_hit env env.configVal n po t ht]
    rfl
  · intro t ht
    rw [mainRun_dispatch env _ _ (parseArgs_security po v n hv) hc rfl]
    dsimp only [dispatch]
    rw [cmd_security_hit env env.configVal n po t ht]
    rfl
  · intro is his
    rw [mainRun_dispatch env _ _ (parseArgs_batch po s) hc rfl]
    dsimp only [dispatch]
    rw [cmd_batch_ok env env.configVal s is his]
    rfl

/-- Witness for claim C1 at concrete inputs: with every child exiting
with code 3, the implement run exits with 3 and the batch run exits
with 0. -/
theorem claim1_exit_code_echo_witness :
    envExit3.configExists = true ∧ pyInt ("42".data) = some 42
    ∧ envExit3.prompt? ("implement".data) = some []
    ∧ (mainRun envExit3 [("implement".data), ("--issue".data), ("42".data)]).result
        = TermStatus.exited 3
    ∧ parseIssues ("1,2".data) = some [1, 2]
    ∧ (mainRun envExit3 [("batch".data), ("--issues".data), ("1,2".data)]).result
        = TermStatus.exited 0 := by
  refine ⟨rfl, rfl, rfl, ?_, rfl, ?_⟩
  · exact (claim1_exit_code_echo envExit3 false ("42".data) 42 ("1,2".data) rfl rfl).1 [] rfl
  · exact (claim1_exit_code_echo envExit3 false ("42".data) 42 ("1,2".data) rfl rfl).2.2.2
      [1, 2] rfl

/-- Claim C2: for every comma separated issue list accepted by the
batch parsing, exactly one child per issue is spawned, one child per
comma separated token, the children are waited on and reported in
input order, and each issue is labelled done exactly when its child
exited with code 0. -/
theorem claim2_batch_children (env : Env) (config : Str) (s : Str) (is : List Int)
    (h : parseIssues s = some is) :
    cmd_batch env config s
      = ⟨dispatchLine is.length :: (is.map startLine ++ (waitLine :: is.map (statusLine env))),
         is.map batchCmd, HRes.ret 0⟩
    ∧ (is.map batchCmd).length = (pySplit (",".data) s).length
    ∧ ∀ i ∈ is, (statusLine env i
        = ("  Issue #".data) ++ pyStr i ++ (": ".data) ++ ("done".data)
          ↔ env.exec (batchCmd i) = 0) := by
  refine ⟨cmd_batch_ok env config s is h, ?_, ?_⟩
  · rw [List.length_map]
    exact parseIssuesList_length _ _ h
  · intro i _
    constructor
    · intro heq
      by_contra hne
      unfold statusLine at heq
      rw [if_neg hne] at heq
      exact absurd (List.append_cancel_left heq) (by decide)
    · intro h0
      unfold statusLine
      rw [if_pos h0]

/-- Witness for claim C2 at a concrete three issue batch in which the
child for issue 2 fails and the others succeed. -/
theorem claim2_batch_children_witness :
    parseIssues ("1,2,3".data) = some [1, 2, 3]
    ∧ cmd_batch envB [] ("1,2,3".data)
        = ⟨dispatchLine 3
            :: ([1, 2, 3].map startLine ++ (waitLine :: [1, 2, 3].map (statusLine envB))),
           [1, 2, 3].map batchCmd, HRes.ret 0⟩
    ∧ statusLine envB 2 = ("  Issue #2: failed".data)
    ∧ statusLine envB 1 = ("  Issue #1: done".data) := by
  refine ⟨rfl, ?_, rfl, rfl⟩
  exact (claim2_batch_children envB [] ("1,2,3".data) [1, 2, 3] rfl).1

/-- Counterexample to claim C3 as stated: two runs with identical
template contents and identical command line parameters but different
git remote state compose different implement prompts, so the prompt is
not a function of template and parameters alone. -/
theorem claim3_prompt_purity_cex :
    envDemo.prompt? ("implement".data) = envNoGit.prompt? ("implement".data)
    ∧ implementPromptOf envDemo 42 ≠ implementPromptOf envNoGit 42 :=
  ⟨rfl, by decide⟩

/-- Claim C3 amended: prompt composition is a pure function of the
template text, the command line parameters, and the parsed git remote
information; two runs agreeing on those compose identical prompts, for
each of the three single task subcommands. -/
theorem claim3_prompt_deterministic (e1 e2 : Env) (i pr : Int) :
    (e1.prompt? ("implement".data) = e2.prompt? ("implement".data) →
      get_repo_info e1 = get_repo_info e2 →
      implementPromptOf e1 i = implementPromptOf e2 i)
    ∧ (e1.prompt? ("review".data) = e2.prompt? ("review".data) →
      reviewPromptOf e1 pr = reviewPromptOf e2 pr)
    ∧ (e1.prompt? ("security".data) = e2.prompt? ("security".data) →
      securityPromptOf e1 pr = securityPromptOf e2 pr) := by
  refine ⟨?_, ?_, ?_⟩
  · intro hp hg
    unfold implementPromptOf issueRefOf
    rw [hp, hg]
  · intro hp
    unfold reviewPromptOf
    rw [hp]
  · intro hp
    unfold securityPromptOf
    rw [hp]

/-- Witness for the amended claim C3 at two concrete environments that
differ only in the configuration document. -/
theorem claim3_prompt_deterministic_witness :
    envCfgA.prompt? ("implement".data) = envCfgB.prompt? ("implement".data)
    ∧ get_repo_info envCfgA = get_repo_info envCfgB
    ∧ implementPromptOf envCfgA 5 = implementPromptOf envCfgB 5 :=
  ⟨rfl, rfl, (claim3_prompt_deterministic envCfgA envCfgB 5 5).1 rfl rfl⟩

/-- Counterexample to claim C4 as stated: an unknown subcommand makes
the program exit with code 2, through the argparse invalid choice
error, and not with code 1. -/
theorem claim4_unknown_cmd_cex :
    (mainRun envDemo [("frobnicate".data)]).result = TermStatus.exited 2
    ∧ (mainRun envDemo [("frobnicate".data)]).result ≠ TermStatus.exited 1 :=
  ⟨rfl, by decide⟩

/-- Claim C4 amended: an invocation whose subcommand token is none of
implement, review, security-review or batch is rejected during
argument parsing: the program prints the argparse invalid choice
message and exits with code 2 before any handler can run; the print
help and exit 1 fallback after the dispatch table is unreachable. -/
theorem claim4_unknown_cmd (env : Env) (argv : List Str) (g : GOpts) (c : Str)
    (ctoks : List Str)
    (hg : parseGlobals defaultGOpts argv = Except.ok (g, c :: ctoks))
    (h1 : c ≠ ("implement".data)) (h2 : c ≠ ("review".data))
    (h3 : c ≠ ("security-review".data)) (h4 : c ≠ ("batch".data)) :
    mainRun env argv
      = ⟨[("usage: invalid choice: ".data) ++ c], [], TermStatus.exited 2⟩ :=
  mainRun_error env argv _ (parseArgs_badcmd argv g c ctoks hg h1 h2 h3 h4)

/-- Witness for the amended claim C4 at a concrete unknown subcommand. -/
theorem claim4_unknown_cmd_witness :
    parseGlobals defaultGOpts [("frobnicate".data)]
        = Except.ok (defaultGOpts, [("frobnicate".data)])
    ∧ mainRun envDemo [("frobnicate".data)]
        = ⟨[("usage: invalid choice: ".data) ++ ("frobnicate".data)], [],
           TermStatus.exited 2⟩ :=
  ⟨rfl, claim4_unknown_cmd envDemo _ defaultGOpts _ [] rfl
    (by decide) (by decide) (by decide) (by decide)⟩

/-- Counterexample to claim C5 as stated: for the owner o and the
repository name a:b the two URL forms parse to different pairs,
because the SSH parse splits the whole URL on every colon and keeps
only the segment between the first two. -/
theorem claim5_url_forms_cex :
    parseGitUrl ("git@github.com:o/a:b.git".data) = some (("o".data), ("a".data))
    ∧ parseGitUrl ("https://github.com/o/a:b.git".data) = some (("o".data), ("a:b".data))
    ∧ parseGitUrl ("git@github.com:o/a:b.git".data)
        ≠ parseGitUrl ("https://github.com/o/a:b.git".data) :=
  ⟨rfl, rfl, by decide⟩

/-- Claim C5 amended: for every owner containing no colon, no slash
and no dot, and every repository name containing no colon and no
slash, parsing the SSH form and parsing the HTTPS form of the same
GitHub remote yield the same owner and repository pair. -/
theorem claim5_url_forms_agree (o r : Str) (ho1 : ':' ∉ o) (ho2 : '/' ∉ o)
    (ho3 : '.' ∉ o) (hr1 : ':' ∉ r) (hr2 : '/' ∉ r) :
    parseGitUrl (sshUrl o r) = parseGitUrl (httpsUrl o r) := by
  have hs := split_ssh o r ho1 hr1
  have hh := split_https o r ho2 ho3 hr2
  have hc1 : pyContains ("github.com".data) (sshUrl o r) = true := by
    show pyContains ("github.com".data)
        (("git@".data) ++ (("github.com".data)
          ++ (':' :: (o ++ '/' :: (r ++ (".git".data)))))) = true
    exact pyContains_append _ _ _
  have hc2 : pyContains ("github.com".data) (httpsUrl o r) = true := by
    show pyContains ("github.com".data)
        (("https://".data) ++ (("github.com".data)
          ++ ('/' :: (o ++ '/' :: (r ++ (".git".data)))))) = true
    exact pyContains_append _ _ _
  have hs1 : ("git@".data).isPrefixOf (sshUrl o r) = true := by
    show ("git@".data).isPrefixOf
        (("git@".data) ++ (("github.com".data)
          ++ (':' :: (o ++ '/' :: (r ++ (".git".data)))))) = true
    exact hp_append _ _
  have hs2 : ("git@".data).isPrefixOf (httpsUrl o r) = false := by
    show ('g' :: ("it@".data)).isPrefixOf
        ('h' :: (("ttps://".data) ++ (("github.com/".data)
          ++ (o ++ '/' :: (r ++ (".git".data)))))) = false
    exact hp_ne _ _ (by decide)
  unfold parseGitUrl
  rw [hc1, hc2, hs1, hs2, hs, hh]
  rfl

/-- Witness for the amended claim C5 at a concrete owner and
repository. -/
theorem claim5_url_forms_agree_witness :
    (':' ∉ ("owner".data) ∧ '/' ∉ ("owner".data) ∧ '.' ∉ ("owner".data)
      ∧ ':' ∉ ("repo".data) ∧ '/' ∉ ("repo".data))
    ∧ parseGitUrl (sshUrl ("owner".data) ("repo".data))
        = parseGitUrl (httpsUrl ("owner".data) ("repo".data)) :=
  ⟨by decide, claim5_url_forms_agree ("owner".data) ("repo".data)
    (by decide) (by decide) (by decide) (by decide) (by decide)⟩

/-- Counterexample to claim C6 as stated: with the implement template
missing the program does exit with code 1, but a child process, the
git remote lookup, has already been spawned by then. -/
theorem claim6_missing_prompt_cex :
    envNoPrompt.prompt? ("implement".data) = none
    ∧ (mainRun envNoPrompt [("implement".data), ("--issue".data), ("1".data)]).result
        = TermStatus.exited 1
    ∧ (mainRun envNoPrompt [("implement".data), ("--issue".data), ("1".data)]).spawned
        = [gitCmd]
    ∧ (mainRun envNoPrompt [("implement".data), ("--issue".data), ("1".data)]).spawned
        ≠ [] :=
  ⟨rfl, rfl, rfl, by decide⟩

/-- Claim C6 amended: a missing configuration file makes the program
print the configuration message and exit with code 1 with nothing else
done; a missing prompt template for the chosen subcommand makes the
program print the template message and exit with code 1 without
composing a prompt and without spawning an agent child, though for
implement the git remote lookup subprocess has already run by then. -/
theorem claim6_missing_files_fatal (env : Env) (argv : List Str) (a : Args)
    (po : Bool) (v : Str) (n : Int) :
    (parseArgs argv = Except.ok a → env.configExists = false →
      mainRun env argv = ⟨[configMsg env], [], TermStatus.exited 1⟩)
    ∧ (env.configExists = true → pyInt v = some n →
       env.prompt? ("implement".data) = none →
       mainRun env (goptsArgv po ++ [("implement".data), ("--issue".data), v])
         = ⟨[promptMsg env ("implement".data)], gitSpawn env, TermStatus.exited 1⟩)
    ∧ (env.configExists = true → pyInt v = some n →
       env.prompt? ("review".data) = none →
       mainRun env (goptsArgv po ++ [("review".data), ("--pr".data), v])
         = ⟨[promptMsg env ("review".data)], [], TermStatus.exited 1⟩)
    ∧ (env.configExists = true → pyInt v = some n →
       env.prompt? ("security".data) = none →
       mainRun env (goptsArgv po ++ [("security-review".data), ("--pr".data), v])
         = ⟨[promptMsg env ("security".data)], [], TermStatus.exited 1⟩) := by
  refine ⟨?_, ?_, ?_, ?_⟩
  · intro hp hc
    exact mainRun_noconfig env argv a hp hc
  · intro hc hv ht
    rw [mainRun_dispatch env _ _ (parseArgs_implement po v n hv) hc rfl]
    dsimp only [dispatch]
    rw [cmd_implement_miss env env.configVal n po ht]
    rfl
  · intro hc hv ht
    rw [mainRun_dispatch env _ _ (parseArgs_review po v n hv) hc rfl]
    dsimp only [dispatch]
    rw [cmd_review_miss env env.configVal n po ht]
    rfl
  · intro hc hv ht
    rw [mainRun_dispatch env _ _ (parseArgs_security po v n hv) hc rfl]
    dsimp only [dispatch]
    rw [cmd_security_miss env env.configVal n po ht]
    rfl

/-- Witness for the amended claim C6 at a missing configuration and at
a missing implement template. -/
theorem claim6_missing_files_fatal_witness :
    parseArgs [("review".data), ("--pr".data), ("7".data)]
        = Except.ok ⟨("claude-code".data), false, Cmd.review 7⟩
    ∧ envNoConfig.configExists = false
    ∧ mainRun envNoConfig [("review".data), ("--pr".data), ("7".data)]
        = ⟨[configMsg envNoConfig], [], TermStatus.exited 1⟩
    ∧ envNoPrompt.prompt? ("implement".data) = none
    ∧ mainRun envNoPrompt [("implement".data), ("--issue".data), ("1".data)]
        = ⟨[promptMsg envNoPrompt ("implement".data)], gitSpawn envNoPrompt,
           TermStatus.exited 1⟩ := by
  refine ⟨rfl, rfl, ?_, rfl, ?_⟩
  · exact (claim6_missing_files_fatal envNoConfig
      [("review".data), ("--pr".data), ("7".data)]
      ⟨("claude-code".data), false, Cmd.review 7⟩ false ("7".data) 7).1 rfl rfl
  · exact (claim6_missing_files_fatal envNoPrompt []
      ⟨("claude-code".data), false, Cmd.review 7⟩ false ("1".data) 1).2.1 rfl rfl rfl

/-- Claim C7: with the configuration present, any provider other than
claude-code makes the program print the unsupported provider lines and
exit with code 1 without running the subcommand handler and without
spawning any child process, for every parsed invocation. -/
theorem claim7_provider_rejected (env : Env) (argv : List Str) (a : Args)
    (hp : parseArgs argv = Except.ok a) (hc : env.configExists = true)
    (hpr : a.provider ≠ ("claude-code".data)) :
    mainRun env argv = ⟨providerLines a.provider, [], TermStatus.exited 1⟩ :=
  mainRun_provider env argv a hp hc hpr

/-- Witness for claim C7 at the ollama provider and the review
subcommand. -/
theorem claim7_provider_rejected_witness :
    parseArgs [("--provider".data), ("ollama".data), ("review".data), ("--pr".data),
        ("7".data)]
      = Except.ok ⟨("ollama".data), false, Cmd.review 7⟩
    ∧ envDemo.configExists = true
    ∧ ("ollama".data) ≠ ("claude-code".data)
    ∧ mainRun envDemo [("--provider".data), ("ollama".data), ("review".data),
        ("--pr".data), ("7".data)]
      = ⟨providerLines ("ollama".data), [], TermStatus.exited 1⟩ := by
  refine ⟨rfl, rfl, by decide, ?_⟩
  exact claim7_provider_rejected envDemo
    [("--provider".data), ("ollama".data), ("review".data), ("--pr".data), ("7".data)]
    ⟨("ollama".data), false, Cmd.review 7⟩ rfl rfl (by decide)

/-- Claim C8: when the git remote lookup fails or the URL is not a
recognisable GitHub URL, the failure is swallowed: the implement
handler still runs the agent, and the composed prompt refers to the
task with the words issue N instead of the hash form. -/
theorem claim8_git_failure_swallowed (env : Env) (config : Str) (i : Int) (po : Bool)
    (hg : get_repo_info env = none) :
    issueRefOf env i = ("issue ".data) ++ pyStr i
    ∧ ∀ t, env.prompt? ("implement".data) = some t →
      cmd_implement env config i po
        = ⟨[runMsg po, dashLine],
           gitSpawn env ++ [claudeCmd po (implementPrompt t i (("issue ".data) ++ pyStr i))],
           HRes.ret (env.exec
             (claudeCmd po (implementPrompt t i (("issue ".data) ++ pyStr i))))⟩ := by
  have href : issueRefOf env i = ("issue ".data) ++ pyStr i := by
    unfold issueRefOf
    rw [hg]
  refine ⟨href, ?_⟩
  intro t ht
  rw [cmd_implement_hit env config i po t ht, href]

/-- Witness for claim C8 at an environment whose git lookup raises. -/
theorem claim8_git_failure_swallowed_witness :
    get_repo_info envNoGit = none
    ∧ envNoGit.prompt? ("implement".data) = some []
    ∧ issueRefOf envNoGit 9 = ("issue 9".data)
    ∧ cmd_implement envNoGit [] 9 false
        = ⟨[runMsg false, dashLine],
           gitSpawn envNoGit
             ++ [claudeCmd false (implementPrompt [] 9 (("issue ".data) ++ pyStr 9))],
           HRes.ret (envNoGit.exec
             (claudeCmd false (implementPrompt [] 9 (("issue ".data) ++ pyStr 9))))⟩ := by
  refine ⟨rfl, rfl, ?_, ?_⟩
  · exact (claim8_git_failure_swallowed envNoGit [] 9 false rfl).1
  · exact (claim8_git_failure_swallowed envNoGit [] 9 false rfl).2 [] rfl

/-- Claim C9: the issues string 1,a is accepted by argument parsing,
yet the batch handler raises an uncaught ValueError while parsing the
issue list, and no child process is spawned for any issue of the
list. -/
theorem claim9_batch_bad_token (env : Env) (hc : env.configExists = true) :
    parseIssues ("1,a".data) = none
    ∧ mainRun env [("batch".data), ("--issues".data), ("1,a".data)]
        = ⟨[], [], TermStatus.uncaughtValueError⟩ := by
  refine ⟨rfl, ?_⟩
  rw [mainRun_dispatch env [("batch".data), ("--issues".data), ("1,a".data)]
      ⟨("claude-code".data), false, Cmd.batch ("1,a".data)⟩ rfl hc rfl]
  dsimp only [dispatch]
  rw [cmd_batch_raise env env.configVal ("1,a".data) rfl]
  rfl

/-- Witness for claim C9 at the demonstration environment. -/
theorem claim9_batch_bad_token_witness :
    envDemo.configExists = true
    ∧ parseIssues ("1,a".data) = none
    ∧ mainRun envDemo [("batch".data), ("--issues".data), ("1,a".data)]
        = ⟨[], [], TermStatus.uncaughtValueError⟩ :=
  ⟨rfl, (claim9_batch_bad_token envDemo rfl).1, (claim9_batch_bad_token envDemo rfl).2⟩

/-- Claim C10: the contents of the loaded configuration never
influence behaviour: two environments agreeing on everything except
the configuration value produce identical traces on every command
line, so the configuration file matters only through the existence
check at load time. -/
theorem claim10_config_contents_irrelevant (e1 e2 : Env)
    (h1 : e1.scriptDir = e2.scriptDir) (h2 : e1.configExists = e2.configExists)
    (h3 : e1.prompt? = e2.prompt?) (h4 : e1.gitOut = e2.gitOut)
    (h5 : e1.exec = e2.exec) (argv : List Str) :
    mainRun e1 argv = mainRun e2 argv := by
  obtain ⟨d1, c1, v1, p1, g1, x1⟩ := e1
  obtain ⟨d2, c2, v2, p2, g2, x2⟩ := e2
  dsimp only at h1 h2 h3 h4 h5
  subst h1
  subst h2
  subst h3
  subst h4
  subst h5
  rfl

/-- Witness for claim C10 at two environments differing only in the
configuration document. -/
theorem claim10_config_contents_irrelevant_witness :
    envCfgA.scriptDir = envCfgB.scriptDir
    ∧ envCfgA.configExists = envCfgB.configExists
    ∧ envCfgA.configVal ≠ envCfgB.configVal
    ∧ mainRun envCfgA [("review".data), ("--pr".data), ("7".data)]
        = mainRun envCfgB [("review".data), ("--pr".data), ("7".data)] := by
  refine ⟨rfl, rfl, by decide, ?_⟩
  exact claim10_config_contents_irrelevant envCfgA envCfgB rfl rfl rfl rfl rfl _
